import Mathlib

/-!
Verification development for the DLT workshop setup notebook
(`Setup.py`).  The notebook has two pieces of observable logic:

1. a namespace resolver that sanitizes the caller identity
   (a `re.sub` replacing `[^0-9a-zA-Z]` with an underscore), and
2. six declarative dataset specifications handed to an external
   synthetic-data library, materialized and written as delimited text.

The declarative specification layer is embedded from the source;
the materialization and write semantics belong to external
collaborators and are modelled from the specification document
where needed (each such definition says so in its doc comment).
-/

namespace DltWorkshop

/-! ## Namespace resolver (Setup.py line 14) -/

/-- Membership in the character class `[0-9a-zA-Z]` of the regular
expression of the `re.sub` call of Setup.py line 14. -/
def isAlnumChar (c : Char) : Bool :=
  (decide (Char.ofNat 48 ≤ c) && decide (c ≤ Char.ofNat 57)) ||
  (decide (Char.ofNat 97 ≤ c) && decide (c ≤ Char.ofNat 122)) ||
  (decide (Char.ofNat 65 ≤ c) && decide (c ≤ Char.ofNat 90))

/-- Action of the substitution on one character: the pattern
`[^0-9a-zA-Z]` matches exactly one character at a time, so the whole
`re.sub` is a character-wise map. -/
def sanitizeChar (c : Char) : Char :=
  if isAlnumChar c then c else Char.ofNat 95

/-- The namespace resolver of Setup.py line 14:
a `re.sub` replacing every character of the caller identity outside
`[0-9a-zA-Z]` with an underscore, as a function of the identity
string. -/
def username (identity : String) : String :=
  String.mk (identity.data.map sanitizeChar)

theorem sanitizeChar_idem (c : Char) :
    sanitizeChar (sanitizeChar c) = sanitizeChar c := by
  unfold sanitizeChar
  by_cases h : isAlnumChar c
  · simp [h]
  · simp [h]

theorem sanitizeChar_ok (c : Char) :
    (isAlnumChar (sanitizeChar c) || (sanitizeChar c == Char.ofNat 95)) = true := by
  unfold sanitizeChar
  by_cases h : isAlnumChar c
  · simp [h]
  · simp [h]

/-- C3: for every input identity string, the namespace resolver keeps each
character of `[0-9a-zA-Z]` unchanged and replaces every other character
one-for-one with an underscore, so the output has only characters of
`[0-9a-zA-Z_]`, has the same length as the input, and on the sample input
`jane.doe@x` it returns `jane_doe_x`.  Determinism is inherent: `username`
is a pure function of the identity string. -/
theorem username_sanitizes (identity : String) :
    (username identity).data
      = identity.data.map (fun c => if isAlnumChar c then c else Char.ofNat 95)
    ∧ (username identity).data.length = identity.data.length
    ∧ (username identity).data.all
        (fun c => isAlnumChar c || (c == Char.ofNat 95)) = true
    ∧ username "jane.doe@x" = "jane_doe_x" := by
  refine ⟨rfl, by simp [username], ?_, by decide⟩
  simp only [username, List.all_map, List.all_eq_true]
  intro c _
  exact sanitizeChar_ok c

/-- C10: the namespace sanitization is idempotent: applying the
replacement to its own output returns that output unchanged. -/
theorem username_idempotent (identity : String) :
    username (username identity) = username identity := by
  simp only [username, List.map_map]
  congr 1
  apply List.map_congr_left
  intro c _
  exact sanitizeChar_idem c

/-! ## Declarative dataset specifications (Setup.py lines 27-93) -/

/-- Tags for the four pluggable text generator lambdas of Setup.py
lines 34-37 (`name_generator`, `address_generator`, `phone_generator`,
`desc_generator`), each of which delegates to an external fake-data
provider. -/
inductive TextProvider where
  | nameGen
  | addressGen
  | phoneGen
  | descGen
deriving DecidableEq, Repr

/-- Generation rule of one column, one constructor per kind of
`withColumn` call appearing in Setup.py: a fixed value set with a
sampling mode, an integer range, a decimal range with optional step,
a timestamp range (bounds kept as the literal strings of the source),
a pluggable text provider, or the derived e-mail expression
`concat(replace(initcap(regexp_replace(<src>, ...)), ...), "@example.com")`
recorded by its source column name. -/
inductive GenRule where
  | fixedSet (values : List String) (random : Bool)
  | intRange (minValue maxValue : Int) (random : Bool)
  | decRange (lo hi : ℚ) (step : Option ℚ) (random : Bool)
  | tsRange (minValue maxValue : String) (random : Bool)
  | pyfuncText (provider : TextProvider)
  | emailExpr (sourceCol : String)
deriving DecidableEq, Repr

/-- One column of a declarative table specification: name, declared
type (the literal type string of the source), null-injection
probability (`percentNulls`, 0 when the source omits it), and the
generation rule. -/
structure ColumnSpec where
  name : String
  colType : String
  percentNulls : ℚ
  rule : GenRule
deriving DecidableEq, Repr

/-- A declarative table specification: target row count, whether an
auto-generated id column is emitted first (`withIdOutput`), and the
ordered column specifications. -/
structure DataGenerator where
  rows : Nat
  idOutput : Bool
  columns : List ColumnSpec
deriving DecidableEq, Repr

/-- `dg.DataGenerator(rows=n)`: fresh specification with no columns. -/
def dataGenerator (rows : Nat) : DataGenerator :=
  ⟨rows, false, []⟩

/-- Modelled from the spec: the builder produces a new immutable
specification ("construct an immutable base specification, then produce
a new immutable specification that shares all unspecified fields and
replaces only the named ones"); the external library is the code that
implements `withIdOutput`. -/
def DataGenerator.withIdOutput (g : DataGenerator) : DataGenerator :=
  { g with idOutput := true }

/-- Modelled from the spec: row-count override on a derived spec
("copies all column rules from a base spec, substitutes a new row
count"); the external library is the code that implements
`withRowCount`. -/
def DataGenerator.withRowCount (g : DataGenerator) (rc : Nat) : DataGenerator :=
  { g with rows := rc }

/-- Modelled from the spec: adding a column appends its specification;
adding a column whose name already exists substitutes the new rule for
that column, leaving the rule of every other column untouched; the
external library is the code that implements `withColumn`. -/
def DataGenerator.withColumn (g : DataGenerator) (c : ColumnSpec) : DataGenerator :=
  if g.columns.any (fun d => d.name == c.name) then
    { g with columns := g.columns.map (fun d => if d.name == c.name then c else d) }
  else
    { g with columns := g.columns ++ [c] }

/-- Setup.py lines 39-49. -/
def customers_generator : DataGenerator :=
  (dataGenerator 100).withIdOutput
    |>.withColumn ⟨"customer_name", "string", 1/100, .pyfuncText .nameGen⟩
    |>.withColumn ⟨"billing_address", "string", 1/100, .pyfuncText .addressGen⟩
    |>.withColumn ⟨"mailing_address", "string", 2/10, .pyfuncText .addressGen⟩
    |>.withColumn ⟨"phone_number", "string", 2/10, .pyfuncText .phoneGen⟩
    |>.withColumn ⟨"email", "string", 1/10, .emailExpr "customer_name"⟩
    |>.withColumn ⟨"payment_terms", "string", 0,
        .fixedSet ["DUE_ON_RECEIPT", "NET_30", "NET_60", "NET_90", "NET_120"] true⟩
    |>.withColumn ⟨"balance_limit", "decimal(10,2)", 1/100,
        .decRange 1000 100000 none true⟩

/-- Setup.py lines 51-61. -/
def suppliers_cdc_generator : DataGenerator :=
  (dataGenerator 20)
    |>.withColumn ⟨"update_type", "string", 0,
        .fixedSet ["INSERT", "UPDATE", "DELETE"] true⟩
    |>.withColumn ⟨"update_date", "timestamp", 0,
        .tsRange "2024-01-01 00:00:00" "2024-12-31 11:59:59" true⟩
    |>.withColumn ⟨"id", "integer", 0, .intRange 1 100 true⟩
    |>.withColumn ⟨"supplier_name", "string", 1/100, .pyfuncText .nameGen⟩
    |>.withColumn ⟨"billing_address", "string", 1/100, .pyfuncText .addressGen⟩
    |>.withColumn ⟨"mailing_address", "string", 2/10, .pyfuncText .addressGen⟩
    |>.withColumn ⟨"phone_number", "string", 2/10, .pyfuncText .phoneGen⟩
    |>.withColumn ⟨"email", "string", 1/10, .emailExpr "supplier_name"⟩

/-- Setup.py lines 63-68. -/
def items_generator : DataGenerator :=
  (dataGenerator 1000).withIdOutput
    |>.withColumn ⟨"description", "string", 1/10, .pyfuncText .descGen⟩
    |>.withColumn ⟨"unit_price", "decimal(10,2)", 1/100,
        .decRange 1 500 (some (1/100)) true⟩

/-- Setup.py lines 70-79. -/
def orders_generator : DataGenerator :=
  (dataGenerator 10000).withIdOutput
    |>.withColumn ⟨"order_date", "timestamp", 0,
        .tsRange "2020-01-01 00:00:00" "2024-01-01 00:00:00" true⟩
    |>.withColumn ⟨"description", "string", 1/10, .pyfuncText .descGen⟩
    |>.withColumn ⟨"customer_id", "integer", 0, .intRange 1 100 true⟩
    |>.withColumn ⟨"item_id", "integer", 0, .intRange 1 1000 true⟩
    |>.withColumn ⟨"qty_ordered", "integer", 0, .intRange 1 100 true⟩
    |>.withColumn ⟨"business_unit", "string", 0,
        .fixedSet ["retail", "wholesale"] true⟩

/-- Setup.py lines 81-90. -/
def orders_new_generator : DataGenerator :=
  (dataGenerator 1000).withIdOutput
    |>.withColumn ⟨"order_date", "timestamp", 0,
        .tsRange "2020-01-01 00:00:00" "2024-01-01 00:00:00" true⟩
    |>.withColumn ⟨"description", "string", 1/10, .pyfuncText .descGen⟩
    |>.withColumn ⟨"customer_id", "integer", 0, .intRange 1 100 true⟩
    |>.withColumn ⟨"item_id", "integer", 0, .intRange 1 1000 true⟩
    |>.withColumn ⟨"qty_ordered", "integer", 0, .intRange 1 100 true⟩
    |>.withColumn ⟨"business_unit", "string", 0,
        .fixedSet ["direct_to_consumer"] false⟩

/-- Setup.py lines 92-93: the backlog spec derives from the base orders
spec by overriding the row count and the `order_date` range. -/
def orders_backlog_generator : DataGenerator :=
  (orders_generator.withRowCount 100000)
    |>.withColumn ⟨"order_date", "timestamp", 0,
        .tsRange "2000-01-01 00:00:00" "2020-01-01 00:00:00" true⟩

/-! ## Materialization semantics

The build step itself is implemented by the external generation
library; the definitions of this section are modelled from the
specification document (section 4.2), which states the contract this
repository relies on. -/

/-- Numeric value of a decimal digit character. -/
def digitVal (c : Char) : Nat := c.toNat - 48

/-- Natural number denoted by a list of decimal digit characters. -/
def natOfDigits (l : List Char) : Nat :=
  l.foldl (fun a c => a * 10 + digitVal c) 0

/-- Gregorian leap-year rule. -/
def isLeapYear (y : Nat) : Bool :=
  (y % 4 == 0 && y % 100 != 0) || y % 400 == 0

/-- Number of days of month `m` in year `y`. -/
def daysInMonth (y m : Nat) : Nat :=
  if m == 2 then (if isLeapYear y then 29 else 28)
  else if m == 4 || m == 6 || m == 9 || m == 11 then 30
  else 31

/-- Days of the years 1970..y-1. -/
def daysBeforeYear (y : Nat) : Nat :=
  (List.range (y - 1970)).foldl
    (fun a i => a + (if isLeapYear (1970 + i) then 366 else 365)) 0

/-- Days of the months of year `y` before month `m`. -/
def daysBeforeMonth (y m : Nat) : Nat :=
  (List.range (m - 1)).foldl (fun a i => a + daysInMonth y (i + 1)) 0

/-- Modelled from the spec: sampling "a timestamp uniformly between two
bounds inclusive" needs a numeric reading of the bound strings; this
parses the fixed `YYYY-MM-DD HH:MM:SS` shape used by the source into
seconds since 1970-01-01 (any other shape reads as 0). -/
def parseTs (s : String) : Nat :=
  match s.data with
  | [y1, y2, y3, y4, _, m1, m2, _, d1, d2, _, h1, h2, _, n1, n2, _, c1, c2] =>
    let y := natOfDigits [y1, y2, y3, y4]
    let mo := natOfDigits [m1, m2]
    let d := natOfDigits [d1, d2]
    (daysBeforeYear y + daysBeforeMonth y mo + (d - 1)) * 86400
      + natOfDigits [h1, h2] * 3600 + natOfDigits [n1, n2] * 60
      + natOfDigits [c1, c2]
  | _ => 0

/-- A materialized cell value: null, text, integer, exact decimal, or a
timestamp in seconds since 1970-01-01. -/
inductive Value where
  | null
  | str (s : String)
  | int (i : Int)
  | dec (q : ℚ)
  | ts (t : Nat)
deriving DecidableEq, Repr

/-- Randomness oracle of the delegated generation engine: a natural
number per row index and draw index.  Every materialization theorem
below holds for every oracle. -/
abbrev Oracle : Type := Nat → Nat → Nat

/-- External text-provider oracle (the fake-data engine): the text
produced for a provider, a row index and a raw draw. -/
abbrev TextOracle : Type := TextProvider → Nat → Nat → String

/-- Modelled from the spec: null injection "nulls a given value with
its configured probability, applied per-row after the base value is
generated"; a uniform draw modulo 100 is compared against the
configured probability (every probability of the source is a multiple
of 1/100). -/
def rollNull (p : ℚ) (r : Nat) : Bool :=
  decide (((r % 100 : Nat) : ℚ) / 100 < p)

/-- Replacement step of `regexp_replace(<name>, "[^0-9A-Za-z]", " ")`:
every character outside the class becomes a space. -/
def exprSpaceChar (c : Char) : Char :=
  if isAlnumChar c then c else Char.ofNat 32

/-- Spark `initcap`: first letter of each space-delimited word
uppercased, every other letter lowercased. -/
def initcapAux : Bool → List Char → List Char
  | _, [] => []
  | atWordStart, c :: cs =>
    if c == Char.ofNat 32 then c :: initcapAux true cs
    else (if atWordStart then c.toUpper else c.toLower) :: initcapAux false cs

/-- Semantics of the derived e-mail expression of Setup.py lines 46 and
60: replace every character of the source name outside `[0-9A-Za-z]`
with a space, apply `initcap`, remove all spaces, and append the fixed
domain suffix. -/
def emailFromName (name : String) : String :=
  String.mk ((initcapAux true (name.data.map exprSpaceChar)).filter
      (fun c => !(c == Char.ofNat 32))) ++ "@example.com"

/-- Modelled from the spec: the base (pre-null-injection) value of one
column for one row.  A fixed set samples uniformly in random mode and
cyclically by row index otherwise; integer, decimal and timestamp
ranges yield a value of the inclusive range, decimals quantized to the
step (step 1 when none is declared); a text column delegates to the
text oracle; the derived expression is computed from the already
generated base values of the row, hence from the un-nulled value of
its source column. -/
def genBase (tex : TextOracle) (rowIdx r : Nat)
    (prior : List (String × Value)) : GenRule → Value
  | .fixedSet vs random =>
    .str (vs.getD ((if random then r else rowIdx) % vs.length) "")
  | .intRange lo hi _ =>
    .int (lo + Int.ofNat (r % ((hi - lo).toNat + 1)))
  | .decRange lo hi step _ =>
    let st := step.getD 1
    .dec (lo + ((r % ((Int.floor ((hi - lo) / st)).toNat + 1) : Nat) : ℚ) * st)
  | .tsRange lo hi _ =>
    .ts (parseTs lo + r % (parseTs hi - parseTs lo + 1))
  | .pyfuncText p => .str (tex p rowIdx r)
  | .emailExpr src =>
    .str (emailFromName (match prior.lookup src with
      | some (.str s) => s
      | _ => ""))

/-- First pass of one row: base values, generated column by column in
declared order, each seeing the base values of the columns before it
(`j` is the column position, used to address the randomness oracle). -/
def baseVals (tex : TextOracle) (rand : Oracle) (rowIdx : Nat) :
    Nat → List (String × Value) → List ColumnSpec → List (String × Value)
  | _, _, [] => []
  | j, acc, c :: cs =>
    let v := genBase tex rowIdx (rand rowIdx (2 * j)) acc c.rule
    (c.name, v) :: baseVals tex rand rowIdx (j + 1) (acc ++ [(c.name, v)]) cs

/-- Second pass of one row: null injection, independent per column. -/
def nullPass (rand : Oracle) (rowIdx : Nat) (base : List (String × Value)) :
    Nat → List ColumnSpec → List (String × Value)
  | _, [] => []
  | j, c :: cs =>
    (c.name,
      if rollNull c.percentNulls (rand rowIdx (2 * j + 1)) then Value.null
      else (base.lookup c.name).getD Value.null)
      :: nullPass rand rowIdx base (j + 1) cs

/-- Modelled from the spec: one row is produced in a single
row-construction pass (base values in declared order, then null
injection), and the auto-generated id column, when requested, is the
row index emitted first. -/
def buildRow (g : DataGenerator) (rand : Oracle) (tex : TextOracle)
    (rowIdx : Nat) : List (String × Value) :=
  let base := baseVals tex rand rowIdx 0 [] g.columns
  (if g.idOutput then [("id", Value.int (Int.ofNat rowIdx))] else [])
    ++ nullPass rand rowIdx base 0 g.columns

/-- Modelled from the spec: materialization produces one row per row
index, exactly `rows` of them. -/
def build (g : DataGenerator) (rand : Oracle) (tex : TextOracle) :
    List (List (String × Value)) :=
  (List.range g.rows).map (buildRow g rand tex)

/-- Validity of one generation rule, modelled from the spec: a fixed
value set must be nonempty and every range must satisfy
`min <= max`. -/
def GenRule.wellFormed : GenRule → Bool
  | .fixedSet vs _ => !vs.isEmpty
  | .intRange lo hi _ => decide (lo ≤ hi)
  | .decRange lo hi _ _ => decide (lo ≤ hi)
  | .tsRange lo hi _ => decide (parseTs lo ≤ parseTs hi)
  | .pyfuncText _ => true
  | .emailExpr _ => true

/-- Modelled from the spec: "if a range is inverted (min > max) or a
fixed-set list is empty, generation must fail fast before any row is
produced"; the specification is validated up front and a malformed one
yields an error instead of rows. -/
def buildChecked (g : DataGenerator) (rand : Oracle) (tex : TextOracle) :
    Except String (List (List (String × Value))) :=
  if g.columns.all (fun c => c.rule.wellFormed) then .ok (build g rand tex)
  else .error "invalid specification"

/-! ## Write calls (Setup.py lines 97-153) -/

/-- One write invocation: output format, header option, field
separator, save mode, and destination path as a function of the
resolved username. -/
structure WriteCall where
  fmt : String
  header : Bool
  sep : String
  mode : String
  path : String → String

/-- Setup.py lines 97-103. -/
def customers_write : WriteCall :=
  ⟨"csv", true, "|", "overwrite",
    fun u => "/Volumes/dlt_workshop_" ++ u ++ "/finance/_files/customers"⟩

/-- Setup.py lines 107-113. -/
def suppliers_cdc_write : WriteCall :=
  ⟨"csv", true, ",", "overwrite",
    fun u => "/Volumes/dlt_workshop_" ++ u ++ "/finance/_files/suppliers_cdc"⟩

/-- Setup.py lines 117-123. -/
def items_write : WriteCall :=
  ⟨"csv", true, ",", "overwrite",
    fun u => "/Volumes/dlt_workshop_" ++ u ++ "/finance/_files/items"⟩

/-- Setup.py lines 127-133. -/
def orders_write : WriteCall :=
  ⟨"csv", true, ",", "overwrite",
    fun u => "/Volumes/dlt_workshop_" ++ u ++ "/finance/_files/orders"⟩

/-- Setup.py lines 137-143. -/
def orders_new_write : WriteCall :=
  ⟨"csv", true, ",", "overwrite",
    fun u => "/Volumes/dlt_workshop_" ++ u ++ "/finance/_files/orders_new"⟩

/-- Setup.py lines 147-153. -/
def orders_backlog_write : WriteCall :=
  ⟨"csv", true, ",", "overwrite",
    fun u => "/Volumes/dlt_workshop_" ++ u ++ "/finance/_files/orders_backlog"⟩

/-- Stored content per path: header flag, separator and the rows. -/
abbrev FileStore : Type :=
  String → Option (Bool × String × List (List (String × Value)))

/-- Modelled from the spec: the dataset writer serializes a
materialized dataset to delimited text, "fully overwriting any
existing content at that path". -/
def writeDataset (fs : FileStore) (p : String) (w : WriteCall)
    (rows : List (List (String × Value))) : FileStore :=
  fun q => if q == p then some (w.header, w.sep, rows) else fs q

/-- Modelled from the spec: one step of the linear control flow:
build the dataset, then write it; a build failure aborts before the
write, so no file is written for a malformed spec. -/
def writeStep (u : String) (g : DataGenerator) (w : WriteCall)
    (rand : Oracle) (tex : TextOracle) (fs : FileStore) :
    Except String FileStore :=
  match buildChecked g rand tex with
  | .error e => .error e
  | .ok rows => .ok (writeDataset fs (w.path u) w rows)

/-- C2: the backlog spec derived from the base orders spec differs from
it only in row count (100000 vs 10000) and in the `order_date` range
(2000-01-01..2020-01-01 vs 2020-01-01..2024-01-01); every other column
carries an identical generation rule, and the base orders spec still
has its original row count and `order_date` range after the
derivation (the builder is copy-with-overrides, so the base is never
mutated). -/
theorem backlog_spec_derivation :
    orders_backlog_generator.rows = 100000
    ∧ orders_generator.rows = 10000
    ∧ orders_backlog_generator.columns.filter (fun c => !(c.name == "order_date"))
        = orders_generator.columns.filter (fun c => !(c.name == "order_date"))
    ∧ orders_backlog_generator.columns.map (fun c => c.name)
        = orders_generator.columns.map (fun c => c.name)
    ∧ orders_backlog_generator.columns.find? (fun c => c.name == "order_date")
        = some ⟨"order_date", "timestamp", 0,
            .tsRange "2000-01-01 00:00:00" "2020-01-01 00:00:00" true⟩
    ∧ orders_generator.columns.find? (fun c => c.name == "order_date")
        = some ⟨"order_date", "timestamp", 0,
            .tsRange "2020-01-01 00:00:00" "2024-01-01 00:00:00" true⟩ := by
  exact ⟨rfl, rfl, rfl, rfl, rfl, rfl⟩

theorem customers_wf :
    customers_generator.columns.all (fun c => c.rule.wellFormed) = true := by
  decide

theorem suppliers_wf :
    suppliers_cdc_generator.columns.all (fun c => c.rule.wellFormed) = true := by
  decide

theorem items_wf :
    items_generator.columns.all (fun c => c.rule.wellFormed) = true := by
  decide

theorem orders_wf :
    orders_generator.columns.all (fun c => c.rule.wellFormed) = true := by
  decide

theorem orders_new_wf :
    orders_new_generator.columns.all (fun c => c.rule.wellFormed) = true := by
  decide

theorem orders_backlog_wf :
    orders_backlog_generator.columns.all (fun c => c.rule.wellFormed) = true := by
  decide

theorem rollNull_zero (r : Nat) : rollNull 0 r = false := by
  simp only [rollNull, decide_eq_false_iff_not, not_lt]
  positivity

/-- C1: every one of the six specifications validates, its build
succeeds, and the materialized output has exactly the configured row
count: customers 100, suppliers_cdc 20, items 1000, orders 10000,
orders_new 1000 and orders_backlog 100000 — for every randomness and
text oracle. -/
theorem built_row_counts (rand : Oracle) (tex : TextOracle) :
    (buildChecked customers_generator rand tex
        = Except.ok (build customers_generator rand tex)
      ∧ (build customers_generator rand tex).length = 100)
    ∧ (buildChecked suppliers_cdc_generator rand tex
        = Except.ok (build suppliers_cdc_generator rand tex)
      ∧ (build suppliers_cdc_generator rand tex).length = 20)
    ∧ (buildChecked items_generator rand tex
        = Except.ok (build items_generator rand tex)
      ∧ (build items_generator rand tex).length = 1000)
    ∧ (buildChecked orders_generator rand tex
        = Except.ok (build orders_generator rand tex)
      ∧ (build orders_generator rand tex).length = 10000)
    ∧ (buildChecked orders_new_generator rand tex
        = Except.ok (build orders_new_generator rand tex)
      ∧ (build orders_new_generator rand tex).length = 1000)
    ∧ (buildChecked orders_backlog_generator rand tex
        = Except.ok (build orders_backlog_generator rand tex)
      ∧ (build orders_backlog_generator rand tex).length = 100000) := by
  refine ⟨⟨?_, ?_⟩, ⟨?_, ?_⟩, ⟨?_, ?_⟩, ⟨?_, ?_⟩, ⟨?_, ?_⟩, ⟨?_, ?_⟩⟩
  · simp [buildChecked, customers_wf]
  · simp only [build, List.length_map, List.length_range]; rfl
  · simp [buildChecked, suppliers_wf]
  · simp only [build, List.length_map, List.length_range]; rfl
  · simp [buildChecked, items_wf]
  · simp only [build, List.length_map, List.length_range]; rfl
  · simp [buildChecked, orders_wf]
  · simp only [build, List.length_map, List.length_range]; rfl
  · simp [buildChecked, orders_new_wf]
  · simp only [build, List.length_map, List.length_range]; rfl
  · simp [buildChecked, orders_backlog_wf]
  · simp only [build, List.length_map, List.length_range]; rfl

/-- C7: the six write calls all serialize to delimited text (`csv`)
with a header row, the customers write uses the `|` separator and the
other five use `,`, every write uses overwrite mode, and the modelled
writer fully overwrites prior content at the destination path: the
path afterwards holds exactly the new rows, and re-running a write on
top of a previous one leaves the store as if only the second run had
happened. -/
theorem writes_delimited_overwrite :
    (customers_write.fmt = "csv" ∧ customers_write.header = true
      ∧ customers_write.sep = "|" ∧ customers_write.mode = "overwrite")
    ∧ ([suppliers_cdc_write, items_write, orders_write, orders_new_write,
        orders_backlog_write].all
          (fun w => w.fmt == "csv" && w.header && w.sep == ","
            && w.mode == "overwrite") = true)
    ∧ (∀ (fs : FileStore) (p : String) (w : WriteCall) rows,
        writeDataset fs p w rows p = some (w.header, w.sep, rows))
    ∧ (∀ (fs : FileStore) (p : String) (w : WriteCall) rows1 rows2,
        writeDataset (writeDataset fs p w rows1) p w rows2
          = writeDataset fs p w rows2) := by
  refine ⟨⟨rfl, rfl, rfl, rfl⟩, rfl, ?_, ?_⟩
  · intro fs p w rows
    simp [writeDataset]
  · intro fs p w rows1 rows2
    funext q
    by_cases h : q = p
    · simp [writeDataset, h]
    · simp [writeDataset, h]

/-- C8: a table spec with an inverted range or an empty fixed-value
set fails validation: its checked build raises an error instead of
materializing rows, and the build-then-write step fails before any
write, so no file is written for that dataset. -/
theorem malformed_spec_fails_fast (g : DataGenerator) (c : ColumnSpec)
    (hmem : c ∈ g.columns) (hbad : c.rule.wellFormed = false)
    (u : String) (w : WriteCall) (rand : Oracle) (tex : TextOracle)
    (fs : FileStore) :
    buildChecked g rand tex = Except.error "invalid specification"
    ∧ writeStep u g w rand tex fs
        = Except.error "invalid specification" := by
  have hall : g.columns.all (fun d => d.rule.wellFormed) = false := by
    cases hb : g.columns.all (fun d => d.rule.wellFormed)
    · rfl
    · have hc := List.all_eq_true.mp hb c hmem
      simp only [hbad] at hc
      exact absurd hc (by decide)
  constructor
  · simp [buildChecked, hall]
  · simp [writeStep, buildChecked, hall]

theorem malformed_spec_fails_fast_witness :
    (⟨"qty_ordered", "integer", 0, .intRange 10 1 true⟩ : ColumnSpec)
        ∈ (⟨5, false, [⟨"qty_ordered", "integer", 0, .intRange 10 1 true⟩]⟩
            : DataGenerator).columns
    ∧ (⟨"qty_ordered", "integer", 0,
          GenRule.intRange 10 1 true⟩ : ColumnSpec).rule.wellFormed = false
    ∧ buildChecked
        ⟨5, false, [⟨"qty_ordered", "integer", 0, .intRange 10 1 true⟩]⟩
        (fun _ _ => 0) (fun _ _ _ => "")
        = Except.error "invalid specification"
    ∧ writeStep "some_user"
        ⟨5, false, [⟨"qty_ordered", "integer", 0, .intRange 10 1 true⟩]⟩
        orders_write (fun _ _ => 0) (fun _ _ _ => "") (fun _ => none)
        = Except.error "invalid specification" := by
  refine ⟨List.mem_singleton.mpr rfl, by decide, ?_⟩
  exact malformed_spec_fails_fast
    ⟨5, false, [⟨"qty_ordered", "integer", 0, .intRange 10 1 true⟩]⟩
    ⟨"qty_ordered", "integer", 0, .intRange 10 1 true⟩
    (List.mem_singleton.mpr rfl) (by decide)
    "some_user" orders_write (fun _ _ => 0) (fun _ _ _ => "") (fun _ => none)

/-- C5: every row of the built orders_new dataset carries the single
constant value `direct_to_consumer` in its business_unit column: the
fixed set has one element, non-random mode assigns cyclically, and the
column has no null injection. -/
theorem orders_new_constant_business_unit (rand : Oracle) (tex : TextOracle)
    (row : List (String × Value))
    (h : row ∈ build orders_new_generator rand tex) :
    row.lookup "business_unit" = some (Value.str "direct_to_consumer") := by
  simp only [build, List.mem_map, List.mem_range] at h
  obtain ⟨i, hi, rfl⟩ := h
  simp [buildRow, baseVals, nullPass, genBase, rollNull_zero, Nat.mod_one,
    orders_new_generator, dataGenerator, DataGenerator.withColumn,
    DataGenerator.withIdOutput, List.lookup]

theorem orders_new_constant_business_unit_witness :
    (buildRow orders_new_generator (fun _ _ => 0) (fun _ _ _ => "") 0).lookup
        "business_unit" = some (Value.str "direct_to_consumer") :=
  orders_new_constant_business_unit (fun _ _ => 0) (fun _ _ _ => "") _
    (List.mem_map_of_mem _ (List.mem_range.mpr (by decide)))

/-- The given column of the row holds a non-null integer within the
inclusive bounds. -/
def intCell (row : List (String × Value)) (col : String) (lo hi : Int) : Prop :=
  ∃ v : Int, row.lookup col = some (Value.int v) ∧ lo ≤ v ∧ v ≤ hi

/-- C9: in every row of the built orders, orders_new and orders_backlog
datasets, the foreign-key-like integer columns lie in their declared
inclusive ranges: customer_id in [1, 100], item_id in [1, 1000] and
qty_ordered in [1, 100] — for every oracle and every row index of each
dataset. -/
theorem fk_columns_in_declared_ranges (rand : Oracle) (tex : TextOracle)
    (i j k : Nat) (hi : i < 10000) (hj : j < 1000) (hk : k < 100000) :
    (buildRow orders_generator rand tex i ∈ build orders_generator rand tex
      ∧ buildRow orders_new_generator rand tex j
          ∈ build orders_new_generator rand tex
      ∧ buildRow orders_backlog_generator rand tex k
          ∈ build orders_backlog_generator rand tex)
    ∧ (intCell (buildRow orders_generator rand tex i) "customer_id" 1 100
      ∧ intCell (buildRow orders_generator rand tex i) "item_id" 1 1000
      ∧ intCell (buildRow orders_generator rand tex i) "qty_ordered" 1 100)
    ∧ (intCell (buildRow orders_new_generator rand tex j) "customer_id" 1 100
      ∧ intCell (buildRow orders_new_generator rand tex j) "item_id" 1 1000
      ∧ intCell (buildRow orders_new_generator rand tex j) "qty_ordered" 1 100)
    ∧ (intCell (buildRow orders_backlog_generator rand tex k) "customer_id" 1 100
      ∧ intCell (buildRow orders_backlog_generator rand tex k) "item_id" 1 1000
      ∧ intCell (buildRow orders_backlog_generator rand tex k)
          "qty_ordered" 1 100) := by
  refine ⟨⟨List.mem_map_of_mem _ (List.mem_range.mpr hi),
           List.mem_map_of_mem _ (List.mem_range.mpr hj),
           List.mem_map_of_mem _ (List.mem_range.mpr hk)⟩,
    ⟨⟨1 + ((rand i 4 % 100 : Nat) : Int), ?_, ?_, ?_⟩,
     ⟨1 + ((rand i 6 % 1000 : Nat) : Int), ?_, ?_, ?_⟩,
     ⟨1 + ((rand i 8 % 100 : Nat) : Int), ?_, ?_, ?_⟩⟩,
    ⟨⟨1 + ((rand j 4 % 100 : Nat) : Int), ?_, ?_, ?_⟩,
     ⟨1 + ((rand j 6 % 1000 : Nat) : Int), ?_, ?_, ?_⟩,
     ⟨1 + ((rand j 8 % 100 : Nat) : Int), ?_, ?_, ?_⟩⟩,
    ⟨⟨1 + ((rand k 4 % 100 : Nat) : Int), ?_, ?_, ?_⟩,
     ⟨1 + ((rand k 6 % 1000 : Nat) : Int), ?_, ?_, ?_⟩,
     ⟨1 + ((rand k 8 % 100 : Nat) : Int), ?_, ?_, ?_⟩⟩⟩
  all_goals first
    | omega
    | (simp [buildRow, baseVals, nullPass, genBase, rollNull_zero,
        orders_generator, orders_new_generator, orders_backlog_generator,
        dataGenerator, DataGenerator.withColumn, DataGenerator.withIdOutput,
        DataGenerator.withRowCount, List.lookup])

theorem fk_columns_in_declared_ranges_witness :
    (buildRow orders_generator (fun _ _ => 0) (fun _ _ _ => "") 0
        ∈ build orders_generator (fun _ _ => 0) (fun _ _ _ => "")
      ∧ buildRow orders_new_generator (fun _ _ => 0) (fun _ _ _ => "") 0
          ∈ build orders_new_generator (fun _ _ => 0) (fun _ _ _ => "")
      ∧ buildRow orders_backlog_generator (fun _ _ => 0) (fun _ _ _ => "") 0
          ∈ build orders_backlog_generator (fun _ _ => 0) (fun _ _ _ => ""))
    ∧ (intCell (buildRow orders_generator (fun _ _ => 0) (fun _ _ _ => "") 0)
          "customer_id" 1 100
      ∧ intCell (buildRow orders_generator (fun _ _ => 0) (fun _ _ _ => "") 0)
          "item_id" 1 1000
      ∧ intCell (buildRow orders_generator (fun _ _ => 0) (fun _ _ _ => "") 0)
          "qty_ordered" 1 100)
    ∧ (intCell (buildRow orders_new_generator (fun _ _ => 0) (fun _ _ _ => "") 0)
          "customer_id" 1 100
      ∧ intCell (buildRow orders_new_generator (fun _ _ => 0) (fun _ _ _ => "") 0)
          "item_id" 1 1000
      ∧ intCell (buildRow orders_new_generator (fun _ _ => 0) (fun _ _ _ => "") 0)
          "qty_ordered" 1 100)
    ∧ (intCell
          (buildRow orders_backlog_generator (fun _ _ => 0) (fun _ _ _ => "") 0)
          "customer_id" 1 100
      ∧ intCell
          (buildRow orders_backlog_generator (fun _ _ => 0) (fun _ _ _ => "") 0)
          "item_id" 1 1000
      ∧ intCell
          (buildRow orders_backlog_generator (fun _ _ => 0) (fun _ _ _ => "") 0)
          "qty_ordered" 1 100) :=
  fk_columns_in_declared_ranges (fun _ _ => 0) (fun _ _ _ => "") 0 0 0
    (by decide) (by decide) (by decide)

/-- C6: in every row of the built items dataset the unit_price cell is
either null (its 1/100 null probability) or an exact decimal that is an
integer multiple of the declared step 0.01 within the declared
inclusive range [1, 500]: it equals n/100 for an integer n with
100 <= n <= 50000. -/
theorem items_unit_price_range_step (rand : Oracle) (tex : TextOracle)
    (row : List (String × Value)) (h : row ∈ build items_generator rand tex) :
    row.lookup "unit_price" = some Value.null
    ∨ ∃ n : Int, row.lookup "unit_price" = some (Value.dec ((n : ℚ) / 100))
        ∧ 100 ≤ n ∧ n ≤ 50000 := by
  simp only [build, List.mem_map, List.mem_range] at h
  obtain ⟨i, hi, rfl⟩ := h
  have hval : (buildRow items_generator rand tex i).lookup "unit_price"
      = some (if rollNull (1/100) (rand i 3) then Value.null
          else Value.dec (1 + ((rand i 2 % 49901 : Nat) : ℚ) * (1/100))) := by
    simp [buildRow, baseVals, nullPass, genBase, rollNull_zero,
      items_generator, dataGenerator, DataGenerator.withColumn,
      DataGenerator.withIdOutput, List.lookup]
    norm_num
    rfl
  cases hnull : rollNull (1/100) (rand i 3)
  · right
    refine ⟨100 + ((rand i 2 % 49901 : Nat) : Int), ?_, ?_, ?_⟩
    · rw [hval]
      simp only [hnull, Bool.false_eq_true, if_false]
      generalize rand i 2 % 49901 = m
      have hq : (1 + (m : ℚ) * (1/100))
          = (((100 + (m : Int) : Int) : ℚ) / 100) := by
        push_cast
        ring
      rw [hq]
    · omega
    · have hm := Nat.mod_lt (rand i 2) (show 0 < 49901 by decide)
      omega
  · left
    rw [hval]
    simp only [hnull, if_true]

theorem items_unit_price_range_step_witness :
    (buildRow items_generator (fun _ _ => 0) (fun _ _ _ => "") 0).lookup
        "unit_price" = some Value.null
    ∨ ∃ n : Int,
        (buildRow items_generator (fun _ _ => 0) (fun _ _ _ => "") 0).lookup
            "unit_price" = some (Value.dec ((n : ℚ) / 100))
        ∧ 100 ≤ n ∧ n ≤ 50000 :=
  items_unit_price_range_step (fun _ _ => 0) (fun _ _ _ => "") _
    (List.mem_map_of_mem _ (List.mem_range.mpr (by decide)))

/-- C4: in every row of the built customers and suppliers_cdc datasets
the email cell is computed from the un-nulled base value of the name
column.  The name cell is null exactly when its own null draw fires
(`rand i 1` for customers, `rand j 7` for suppliers); the email cell is
null exactly when its own 1/10 null draw fires (`rand i 9`, `rand j 15`)
and otherwise equals the sanitized base name draw (`rand i 0`,
`rand j 6`) with the fixed domain suffix.  The email cell never depends
on the null draw of the name column, so whenever the email draw does
not fire the email is the non-null derived string even for rows whose
displayed name was nulled. -/
theorem email_derived_from_unnulled_name (rand : Oracle) (tex : TextOracle)
    (i j : Nat) (hi : i < 100) (hj : j < 20) :
    (buildRow customers_generator rand tex i
        ∈ build customers_generator rand tex
      ∧ (buildRow customers_generator rand tex i).lookup "customer_name"
          = some (if rollNull (1/100) (rand i 1) then Value.null
              else Value.str (tex .nameGen i (rand i 0)))
      ∧ (buildRow customers_generator rand tex i).lookup "email"
          = some (if rollNull (1/10) (rand i 9) then Value.null
              else Value.str (emailFromName (tex .nameGen i (rand i 0)))))
    ∧ (buildRow suppliers_cdc_generator rand tex j
        ∈ build suppliers_cdc_generator rand tex
      ∧ (buildRow suppliers_cdc_generator rand tex j).lookup "supplier_name"
          = some (if rollNull (1/100) (rand j 7) then Value.null
              else Value.str (tex .nameGen j (rand j 6)))
      ∧ (buildRow suppliers_cdc_generator rand tex j).lookup "email"
          = some (if rollNull (1/10) (rand j 15) then Value.null
              else Value.str (emailFromName (tex .nameGen j (rand j 6))))) := by
  have hcn : (buildRow customers_generator rand tex i).lookup "customer_name"
      = some (if rollNull (1/100) (rand i 1) then Value.null
          else Value.str (tex .nameGen i (rand i 0))) := by
    simp [buildRow, baseVals, nullPass, genBase, rollNull_zero,
      customers_generator, dataGenerator, DataGenerator.withColumn,
      DataGenerator.withIdOutput, List.lookup]
  have hc : (buildRow customers_generator rand tex i).lookup "email"
      = some (if rollNull (1/10) (rand i 9) then Value.null
          else Value.str (emailFromName (tex .nameGen i (rand i 0)))) := by
    simp [buildRow, baseVals, nullPass, genBase, rollNull_zero,
      customers_generator, dataGenerator, DataGenerator.withColumn,
      DataGenerator.withIdOutput, List.lookup]
  have hsn : (buildRow suppliers_cdc_generator rand tex j).lookup "supplier_name"
      = some (if rollNull (1/100) (rand j 7) then Value.null
          else Value.str (tex .nameGen j (rand j 6))) := by
    simp [buildRow, baseVals, nullPass, genBase, rollNull_zero,
      suppliers_cdc_generator, dataGenerator, DataGenerator.withColumn,
      DataGenerator.withIdOutput, List.lookup]
  have hs : (buildRow suppliers_cdc_generator rand tex j).lookup "email"
      = some (if rollNull (1/10) (rand j 15) then Value.null
          else Value.str (emailFromName (tex .nameGen j (rand j 6)))) := by
    simp [buildRow, baseVals, nullPass, genBase, rollNull_zero,
      suppliers_cdc_generator, dataGenerator, DataGenerator.withColumn,
      DataGenerator.withIdOutput, List.lookup]
  exact ⟨⟨List.mem_map_of_mem _ (List.mem_range.mpr hi), hcn, hc⟩,
         ⟨List.mem_map_of_mem _ (List.mem_range.mpr hj), hsn, hs⟩⟩

theorem email_derived_from_unnulled_name_witness :
    ((buildRow customers_generator
          (fun _ d => if d == 9 || d == 15 then 10 else 0)
          (fun _ _ _ => "ACME co") 0).lookup "customer_name"
        = some Value.null
      ∧ (buildRow customers_generator
          (fun _ d => if d == 9 || d == 15 then 10 else 0)
          (fun _ _ _ => "ACME co") 0).lookup "email"
        = some (Value.str (emailFromName "ACME co")))
    ∧ ((buildRow suppliers_cdc_generator
          (fun _ d => if d == 9 || d == 15 then 10 else 0)
          (fun _ _ _ => "ACME co") 0).lookup "supplier_name"
        = some Value.null
      ∧ (buildRow suppliers_cdc_generator
          (fun _ d => if d == 9 || d == 15 then 10 else 0)
          (fun _ _ _ => "ACME co") 0).lookup "email"
        = some (Value.str (emailFromName "ACME co"))) := by
  obtain ⟨⟨_, hcn, hce⟩, _, hsn, hse⟩ :=
    email_derived_from_unnulled_name
      (fun _ d => if d == 9 || d == 15 then 10 else 0)
      (fun _ _ _ => "ACME co") 0 0 (by decide) (by decide)
  refine ⟨⟨?_, ?_⟩, ?_, ?_⟩
  · rw [hcn]; norm_num [rollNull]
  · rw [hce]; norm_num [rollNull]
  · rw [hsn]; norm_num [rollNull]
  · rw [hse]; norm_num [rollNull]

end DltWorkshop
